import Mathlib

/-!
Shallow embedding of the layoffs-dashboard data pipeline (src/app.py).

Python floats are modelled as exact rationals (ℚ); the IEEE special values
NaN / +inf / -inf, which arise in the pandas percentage-change pipeline,
are modelled by the `PFloat` type.  Missing values (None / NaN cells) are
modelled by `RawValue.none`.  A Python exception escaping `clean_funds`
(the `float()` call can raise ValueError) is modelled by `Except.error ()`.
-/

/-- A raw cell of the input table: missing/NaN, a number, or a string. -/
inductive RawValue : Type
  | none : RawValue
  | num : ℚ → RawValue
  | str : String → RawValue
deriving DecidableEq, Repr

/-- IEEE-style value: a finite real (exact rational), ±infinity, or NaN.
Used to model the pandas `pct_change`/`mean` pipeline, where division by a
zero prior-year total produces an infinity that `dropna` does not remove. -/
inductive PFloat : Type
  | real : ℚ → PFloat
  | pinf : PFloat
  | ninf : PFloat
  | nan : PFloat
deriving DecidableEq, Repr

/-- IEEE addition on `PFloat` (NaN propagates; inf + (-inf) = NaN). -/
def PFloat.add : PFloat → PFloat → PFloat
  | .nan, _ => .nan
  | _, .nan => .nan
  | .pinf, .ninf => .nan
  | .ninf, .pinf => .nan
  | .pinf, _ => .pinf
  | _, .pinf => .pinf
  | .ninf, _ => .ninf
  | _, .ninf => .ninf
  | .real a, .real b => .real (a + b)

/-- Multiplication by the positive constant 100 (the `* 100` in the code). -/
def PFloat.scale100 : PFloat → PFloat
  | .real a => .real (a * 100)
  | .pinf => .pinf
  | .ninf => .ninf
  | .nan => .nan

/-- Division by a positive natural (series length); infinities survive. -/
def PFloat.divNat : PFloat → ℕ → PFloat
  | .real a, n => .real (a / n)
  | .pinf, _ => .pinf
  | .ninf, _ => .ninf
  | .nan, _ => .nan

/-- Sum of a list of `PFloat`s (pandas `Series.sum` over already-dropna data). -/
def psum (l : List PFloat) : PFloat := l.foldr PFloat.add (PFloat.real 0)

/-- Mean of a list of `PFloat`s: sum divided by length. -/
def pmean (l : List PFloat) : PFloat := (psum l).divNat l.length

/-- Python `str.strip()`: remove leading and trailing whitespace. -/
def pyStrip (s : String) : String :=
  String.mk (((s.data.dropWhile Char.isWhitespace).reverse.dropWhile
    Char.isWhitespace).reverse)

/-- Remove every occurrence of a character (Python `str.replace(c, "")`). -/
def removeChar (c : Char) (s : String) : String :=
  String.mk (s.data.filter (fun d => d != c))

/-- Value of a list of decimal digit characters (most significant first). -/
def digitsVal (cs : List Char) : ℕ :=
  cs.foldl (fun n c => 10 * n + (c.toNat - 48)) 0

/-- Python `float()` on a string of digits and dots (the only shape the
`clean_funds` regex group `[\d\.]+` can produce): defined iff the string is
non-empty, has at most one dot and at least one digit; `none` models the
ValueError raised otherwise (e.g. on "." or "1.2.3"). -/
def pyFloatL (cs : List Char) : Option ℚ :=
  if cs.isEmpty then Option.none
  else if ¬ cs.all (fun c => c.isDigit || c == '.') then Option.none
  else if 1 < cs.count '.' then Option.none
  else if cs.all (fun c => c == '.') then Option.none
  else
    let ip := cs.takeWhile (fun c => c != '.')
    let fp := (cs.dropWhile (fun c => c != '.')).drop 1
    if fp.isEmpty then some ((digitsVal ip : ℚ))
    else some ((digitsVal (ip ++ fp) : ℚ) / ((10 : ℚ) ^ fp.length))

/-- Embeds `pd.to_numeric(_, errors="coerce")` on one cell, modelling its decimal
grammar: numbers pass through, strings parse as optionally-signed decimals
(whitespace-stripped), anything else coerces to NaN (`Option.none`). -/
def parseNumeric : RawValue → Option ℚ
  | RawValue.none => Option.none
  | RawValue.num q => some q
  | RawValue.str s =>
    match (pyStrip s).data with
    | [] => Option.none
    | '-' :: rest => (pyFloatL rest).map Neg.neg
    | '+' :: rest => pyFloatL rest
    | cs => pyFloatL cs

/-- Truncation toward zero, as in Python `int()` / numpy `astype(int)`. -/
def ratTrunc (q : ℚ) : ℤ := Int.tdiv q.num (Int.ofNat q.den)

/-- The scale factor of the optional, case-insensitive K/M/B suffix matched
by the regex group `[KMB]?` (characters after it are ignored by `re.match`). -/
def suffixMult (rest : List Char) : ℚ :=
  match rest with
  | [] => 1
  | c :: _ =>
    if c == 'K' || c == 'k' then 1000
    else if c == 'M' || c == 'm' then 1000000
    else if c == 'B' || c == 'b' then 1000000000
    else 1

/-- Embeds `clean_funds` (src/app.py lines 13-33).  Strings: strip `,` and `$` and
whitespace, regex-match a leading run of digits/dots, optional whitespace,
optional K/M/B suffix (case-insensitive); scale accordingly.  `float()` on
the matched run raises for runs like "." — modelled as `Except.error ()`.
No match yields NaN (absent); numbers pass through; other values yield NaN. -/
def clean_funds : RawValue → Except Unit (Option ℚ)
  | RawValue.none => Except.ok Option.none
  | RawValue.num q => Except.ok (some q)
  | RawValue.str s0 =>
    let cs := (pyStrip (removeChar '$' (removeChar ',' s0))).data
    let numPart := cs.takeWhile (fun c => c.isDigit || c == '.')
    if numPart.isEmpty then Except.ok Option.none
    else
      match pyFloatL numPart with
      | Option.none => Except.error ()
      | some q =>
        Except.ok (some (q * suffixMult ((cs.drop numPart.length).dropWhile Char.isWhitespace)))

/-- The month-name table (src/app.py lines 78-80). -/
def month_map : List (String × ℤ) :=
  [("January", 1), ("February", 2), ("March", 3), ("April", 4),
   ("May", 5), ("June", 6), ("July", 7), ("August", 8),
   ("September", 9), ("October", 10), ("November", 11), ("December", 12)]

/-- Python `str.isdigit()` (ASCII): non-empty and all digits. -/
def isDigits (cs : List Char) : Bool := ¬ cs.isEmpty && cs.all Char.isDigit

/-- Embeds `normalize_month` (src/app.py lines 82-93): NaN → 0; numbers truncate to
int; digit strings parse; exact month names map; anything else → 0. -/
def normalize_month : RawValue → ℤ
  | RawValue.none => 0
  | RawValue.num q => ratTrunc q
  | RawValue.str s =>
    let t := pyStrip s
    if isDigits t.data then (digitsVal t.data : ℤ)
    else
      match month_map.find? (fun p => p.1 == t) with
      | some p => p.2
      | Option.none => 0

/-- The string-column cleaning (src/app.py lines 65-70):
missing → "Unknown", strings are stripped.  (`astype(str)` renders numbers
as text; the exact rendering of a numeric cell is immaterial here.) -/
def cleanText : RawValue → String
  | RawValue.none => "Unknown"
  | RawValue.str s => pyStrip s
  | RawValue.num q => pyStrip (toString q)

/-- One raw input row (missing cells are `RawValue.none`). -/
structure RawRow : Type where
  company : RawValue
  location : RawValue
  industry : RawValue
  country : RawValue
  year : RawValue
  month : RawValue
  total_laid_off : RawValue
  funds_raised : RawValue
deriving DecidableEq, Repr

/-- One normalized record (§3 of the spec; src/app.py lines 65-99). -/
structure Rec : Type where
  company : String
  location : String
  industry : String
  country : String
  year : ℤ
  month : ℤ
  total_laid_off : ℤ
  funds_raised_clean : Option ℚ
deriving DecidableEq, Repr

/-- Embeds `pd.to_numeric(_, errors="coerce").fillna(0).astype(int)` on one
cell (src/app.py line 98). -/
def coerceInt (v : RawValue) : ℤ :=
  match parseNumeric v with
  | Option.none => 0
  | some q => ratTrunc q

/-- Sanitize one row (src/app.py lines 65-99): rows whose year does not
coerce to a number are dropped (`Except.ok Option.none`); otherwise the year
is truncated to int, the month normalized, `total_laid_off` coerced with
missing → 0, and `funds_raised` passed through `clean_funds` (whose
ValueError propagates). -/
def sanitizeRow (row : RawRow) : Except Unit (Option Rec) :=
  match parseNumeric row.year with
  | Option.none => Except.ok Option.none
  | some qy =>
    match clean_funds row.funds_raised with
    | Except.error e => Except.error e
    | Except.ok funds =>
      Except.ok (some
        { company := cleanText row.company
          location := cleanText row.location
          industry := cleanText row.industry
          country := cleanText row.country
          year := ratTrunc qy
          month := normalize_month row.month
          total_laid_off := coerceInt row.total_laid_off
          funds_raised_clean := funds })

/-- Sanitize a whole table, keeping row order; an exception anywhere in the
`funds_raised` pass aborts the whole load (as the script would crash). -/
def sanitize : List RawRow → Except Unit (List Rec)
  | [] => Except.ok []
  | row :: rest =>
    match sanitizeRow row, sanitize rest with
    | Except.error e, _ => Except.error e
    | _, Except.error e => Except.error e
    | Except.ok Option.none, Except.ok tail => Except.ok tail
    | Except.ok (some r), Except.ok tail => Except.ok (r :: tail)

instance {ε α : Type} [DecidableEq ε] [DecidableEq α] : DecidableEq (Except ε α) := fun a b =>
  match a, b with
  | Except.error e, Except.error f =>
    if h : e = f then isTrue (by rw [h]) else isFalse (fun hh => h (Except.error.inj hh))
  | Except.error _, Except.ok _ => isFalse (fun hh => Except.noConfusion hh)
  | Except.ok _, Except.error _ => isFalse (fun hh => Except.noConfusion hh)
  | Except.ok x, Except.ok y =>
    if h : x = y then isTrue (by rw [h]) else isFalse (fun hh => h (Except.ok.inj hh))

/-- The Filter Engine (src/app.py lines 129-137): swap a reversed year
range, keep years in the inclusive range, then optional exact matches on
industry and country ("All" disables a filter). -/
def filterEngine (recs : List Rec) (from_year to_year : ℤ)
    (industry country : String) : List Rec :=
  let fy := if from_year > to_year then to_year else from_year
  let ty := if from_year > to_year then from_year else to_year
  let f1 := recs.filter (fun r => decide (fy ≤ r.year ∧ r.year ≤ ty))
  let f2 := if industry ≠ "All" then f1.filter (fun r => decide (r.industry = industry)) else f1
  if country ≠ "All" then f2.filter (fun r => decide (r.country = country)) else f2

/-- Lexicographic comparison of char lists by code point, as Python string
`<=` orders the group keys that pandas `groupby(sort=True)` sorts. -/
def charListLeB : List Char → List Char → Bool
  | [], _ => true
  | _ :: _, [] => false
  | a :: as, b :: bs =>
    if a.toNat < b.toNat then true
    else if b.toNat < a.toNat then false
    else charListLeB as bs

/-- Python string ordering (by code point), kernel-computable. -/
def strLe (a b : String) : Prop := charListLeB a.data b.data = true

instance : DecidableRel strLe := fun _ _ => instDecidableEqBool _ _

/-- Embeds `df.groupby(key)[...].sum()`: the distinct keys in ascending order, each
with the sum of `total_laid_off` over its group (pandas sorts group keys). -/
def groupbySumBy {κ : Type} [DecidableEq κ] (le : κ → κ → Prop) [DecidableRel le]
    (key : Rec → κ) (recs : List Rec) : List (κ × ℤ) :=
  (((recs.map key).dedup).insertionSort le).map
    (fun k => (k, ((recs.filter (fun r => decide (key r = k))).map Rec.total_laid_off).sum))

/-- Embeds `filtered.groupby("year")["total_laid_off"].sum().sort_index()`. -/
def yearlyTotals (recs : List Rec) : List (ℤ × ℤ) :=
  groupbySumBy (fun a b => a ≤ b) Rec.year recs

/-- Embeds `filtered.groupby("industry")["total_laid_off"].sum()`. -/
def industryTotals (recs : List Rec) : List (String × ℤ) :=
  groupbySumBy strLe Rec.industry recs

/-- Embeds `filtered.groupby("country")["total_laid_off"].sum()`. -/
def countryTotals (recs : List Rec) : List (String × ℤ) :=
  groupbySumBy strLe Rec.country recs

/-- Helper for `Series.idxmax`: a key whose value is maximal, first occurrence on ties. -/
def idxmaxAux {κ : Type} (bk : κ) (bv : ℤ) : List (κ × ℤ) → κ
  | [] => bk
  | (k, v) :: rest => if bv < v then idxmaxAux k v rest else idxmaxAux bk bv rest

/-- Embeds `Series.idxmax` over a grouped-sum table (`none` on an empty series). -/
def idxmax {κ : Type} : List (κ × ℤ) → Option κ
  | [] => Option.none
  | (k, v) :: rest => some (idxmaxAux k v rest)

/-- Consecutive pairs of a list (the shifts underlying `pct_change`). -/
def adjPairs : List ℤ → List (ℤ × ℤ)
  | a :: b :: rest => (a, b) :: adjPairs (b :: rest)
  | _ => []

/-- One step of `Series.pct_change` in float semantics: `(c - p) / p`, with
`0/0 = NaN` and `c/0 = ±inf` when the prior value is zero. -/
def pctStep (p c : ℤ) : PFloat :=
  if p = 0 then
    (if c = 0 then PFloat.nan else if 0 < c then PFloat.pinf else PFloat.ninf)
  else PFloat.real (((c : ℚ) - (p : ℚ)) / (p : ℚ))

/-- Embeds `yearly_totals.pct_change().dropna() * 100` (src/app.py line 158):
`dropna` removes NaN (the first year and 0→0 steps) but keeps infinities. -/
def yoyChanges (recs : List Rec) : List PFloat :=
  (((adjPairs ((yearlyTotals recs).map Prod.snd)).map
    (fun pc => pctStep pc.1 pc.2)).filter
      (fun x => decide (x ≠ PFloat.nan))).map PFloat.scale100

/-- Embeds `avg_yoy_change` (src/app.py line 159): mean of the surviving changes,
or 0.0 when none survive. -/
def avgYoyChange (recs : List Rec) : PFloat :=
  let ys := yoyChanges recs
  if ys = [] then PFloat.real 0 else pmean ys

/-- Embeds `filtered["year"].min()` over a non-empty list. -/
def yearMinOf (r : Rec) (rest : List Rec) : ℤ :=
  (rest.map Rec.year).foldl min r.year

/-- Embeds `filtered["year"].max()` over a non-empty list. -/
def yearMaxOf (r : Rec) (rest : List Rec) : ℤ :=
  (rest.map Rec.year).foldl max r.year

/-- The summary scalars of src/app.py lines 156-178.  `Option.none` models
the "N/A" sentinel strings. -/
structure SummaryScalars : Type where
  peak_year : Option ℤ
  top_industry : Option String
  top_country : Option String
  avg_yoy_change : PFloat
  year_min : ℤ
  year_max : ℤ
deriving DecidableEq, Repr

/-- Embeds src/app.py lines 156-178 as `summaryScalars filtered fy ty` with `fy`/`ty` the post-swap selection:
the post-swap selection. -/
def summaryScalars : List Rec → ℤ → ℤ → SummaryScalars
  | [], fy, ty =>
    { peak_year := Option.none, top_industry := Option.none,
      top_country := Option.none, avg_yoy_change := PFloat.real 0,
      year_min := fy, year_max := ty }
  | r :: rest, _, _ =>
    { peak_year := idxmax (yearlyTotals (r :: rest))
      top_industry := idxmax (industryTotals (r :: rest))
      top_country := idxmax (countryTotals (r :: rest))
      avg_yoy_change := avgYoyChange (r :: rest)
      year_min := yearMinOf r rest
      year_max := yearMaxOf r rest }

/-- Embeds `total_layoffs_val` (src/app.py line 186). -/
def totalLayoffsVal (filtered : List Rec) : ℤ :=
  if filtered = [] then 0 else (filtered.map Rec.total_laid_off).sum

/-- A rendered cell of a grouped-sum table. -/
inductive Cell : Type
  | str : String → Cell
  | int : ℤ → Cell
deriving DecidableEq, Repr

/-- A grouped-sum table with its column names. -/
structure SumTable : Type where
  columns : List String
  rows : List (List Cell)
deriving DecidableEq, Repr

/-- Embeds `safe_groupby_sum` (src/app.py lines 45-49): on an empty frame return an
empty table that still has the expected columns; otherwise group and sum
(the grouping itself is the `group` argument, as the pandas call). -/
def safe_groupby_sum (recs : List Rec) (cols : List String) (value_col : String)
    (group : List Rec → List (List Cell)) : SumTable :=
  if recs = [] then { columns := cols ++ [value_col], rows := [] }
  else { columns := cols ++ [value_col], rows := group recs }

/-- Ordering of (year, industry) pairs as pandas sorts a two-key groupby. -/
def yearIndLe (p q : ℤ × String) : Prop :=
  p.1 < q.1 ∨ (p.1 = q.1 ∧ strLe p.2 q.2)

instance : DecidableRel yearIndLe := fun p q => by
  unfold yearIndLe; infer_instance

/-- The grouping used for `animated_data` (src/app.py line 197). -/
def yearIndustryRows (recs : List Rec) : List (List Cell) :=
  (groupbySumBy yearIndLe (fun r => (r.year, r.industry)) recs).map
    (fun kv => [Cell.int kv.1.1, Cell.str kv.1.2, Cell.int kv.2])

/-- Embeds `animated_data` (src/app.py line 197). -/
def animated_data (filtered : List Rec) : SumTable :=
  safe_groupby_sum filtered ["year", "industry"] "total_laid_off" yearIndustryRows

/-- The rows the funding scatter/correlation uses (src/app.py line 299):
`funds_raised_clean` present and strictly positive. -/
def validRows (filtered : List Rec) : List Rec :=
  filtered.filter (fun r =>
    match r.funds_raised_clean with
    | some q => decide (0 < q)
    | Option.none => false)

/-- Outcome of the funding-vs-layoffs correlation block
(src/app.py lines 299-332). -/
inductive CorrReport : Type
  | noFunding : CorrReport
  | insufficient : CorrReport
  | corrValue : ℚ → ℚ → ℚ → CorrReport
deriving DecidableEq, Repr

/-- The correlation block (src/app.py lines 299-332).  With no qualifying
row the block shows the "No funding data available" warning; otherwise
pandas `corr` yields NaN (reported "Insufficient numeric data") exactly when
fewer than 2 rows qualify or a variance vanishes; otherwise the Pearson
coefficient `sxy / sqrt (sxx * syy)` is reported, carried here as the triple
`(sxy, sxx, syy)` since its square root is irrational in general. -/
def corrReport (filtered : List Rec) : CorrReport :=
  let v := validRows filtered
  if v = [] then CorrReport.noFunding
  else
    let xs := v.map (fun r => (r.funds_raised_clean).getD 0)
    let ys := v.map (fun r => ((r.total_laid_off : ℚ)))
    let n := v.length
    let mx := xs.sum / (n : ℚ)
    let my := ys.sum / (n : ℚ)
    let sxx := (xs.map (fun x => (x - mx) ^ 2)).sum
    let syy := (ys.map (fun y => (y - my) ^ 2)).sum
    let sxy := ((xs.zip ys).map (fun p => (p.1 - mx) * (p.2 - my))).sum
    if n < 2 ∨ sxx = 0 ∨ syy = 0 then CorrReport.insufficient
    else CorrReport.corrValue sxy sxx syy

/-- Spec-worded definition (spec §4.4, for the refinement comparison): the
percentage change from one year to the next, defined only when the prior
total is nonzero. -/
def specChange (pc : ℤ × ℤ) : Option ℚ :=
  if pc.1 ≠ 0 then some ((((pc.2 : ℚ) - (pc.1 : ℚ)) / (pc.1 : ℚ)) * 100)
  else Option.none

/-- Spec-worded definition (spec §4.4, for the refinement comparison): the
defined per-year percentage changes,
first year excluded, prior-zero steps undefined hence excluded. -/
def specDefinedChanges (ts : List ℤ) : List ℚ :=
  (adjPairs ts).filterMap specChange

/-- Spec-worded definition (spec §4.4, for the refinement comparison):
the scalar `avg_yoy_change_percent` as the
arithmetic mean of the defined changes, or 0.0 if none exist. -/
def specAvgYoY (ts : List ℤ) : ℚ :=
  let chs := specDefinedChanges ts
  if chs = [] then 0 else chs.sum / (chs.length : ℚ)

/-- C4: the Value Normalizer produces exactly the specified outputs on the
specified inputs — normalize_funds("1,200") = 1200.0, "5K" = 5000.0,
"12.3M" = 12300000.0, "2B" = 2e9, "abc" = absent, 42 = 42;
normalize_month("March") = 3, "13" = 13, None = 0, "Smarch" = 0. -/
theorem c4_normalizer_values :
    clean_funds (RawValue.str "1,200") = Except.ok (some 1200) ∧
    clean_funds (RawValue.str "5K") = Except.ok (some 5000) ∧
    clean_funds (RawValue.str "12.3M") = Except.ok (some 12300000) ∧
    clean_funds (RawValue.str "2B") = Except.ok (some 2000000000) ∧
    clean_funds (RawValue.str "abc") = Except.ok Option.none ∧
    clean_funds (RawValue.num 42) = Except.ok (some 42) ∧
    normalize_month (RawValue.str "March") = 3 ∧
    normalize_month (RawValue.str "13") = 13 ∧
    normalize_month RawValue.none = 0 ∧
    normalize_month (RawValue.str "Smarch") = 0 := by
  refine ⟨?_, ?_, ?_, ?_, ?_, ?_, ?_, ?_, ?_, ?_⟩
  · show Except.ok (some ((1200 : ℚ) * 1)) = _
    norm_num
  · show Except.ok (some ((5 : ℚ) * 1000)) = _
    norm_num
  · show Except.ok (some ((123 : ℚ) / 10 ^ 1 * 1000000)) = _
    norm_num
  · show Except.ok (some ((2 : ℚ) * 1000000000)) = _
    norm_num
  · decide
  · decide
  · decide
  · decide
  · decide
  · decide

/-- C7 (divergence evidence): `clean_funds` is not total on strings — on the
input "." (and on "1.2.3") the regex group `[\d\.]+` matches, and the
subsequent `float()` call raises ValueError instead of yielding the absent
marker, contradicting the never-raises claim. -/
theorem c7_clean_funds_raises :
    clean_funds (RawValue.str ".") = Except.error () ∧
    clean_funds (RawValue.str "1.2.3") = Except.error () :=
  ⟨by decide, by decide⟩

/-- C1: when the filtered record set is empty, every summary scalar takes its
defined sentinel — total layoffs 0, peak year / top industry / top country
"N/A" (modelled `Option.none`), average YoY change 0.0, year_min/year_max the
(post-swap) selected bounds — and every grouped-sum table built by
`safe_groupby_sum` is an empty table that still has the expected columns. -/
theorem c1_empty_filtered_sentinels (filtered : List Rec) (fy ty : ℤ)
    (h : filtered = []) :
    totalLayoffsVal filtered = 0 ∧
    summaryScalars filtered fy ty =
      { peak_year := Option.none, top_industry := Option.none,
        top_country := Option.none, avg_yoy_change := PFloat.real 0,
        year_min := fy, year_max := ty } ∧
    (∀ (cols : List String) (value_col : String) (group : List Rec → List (List Cell)),
      safe_groupby_sum filtered cols value_col group =
        { columns := cols ++ [value_col], rows := [] }) ∧
    animated_data filtered =
      { columns := ["year", "industry", "total_laid_off"], rows := [] } ∧
    yearlyTotals filtered = [] ∧
    industryTotals filtered = [] ∧
    countryTotals filtered = [] := by
  subst h
  exact ⟨rfl, rfl, fun _ _ _ => rfl, rfl, rfl, rfl, rfl⟩

/-- Witness for C1 at the empty filtered set with bounds 2020–2021. -/
theorem c1_witness :
    totalLayoffsVal [] = 0 ∧
    summaryScalars [] 2020 2021 =
      { peak_year := Option.none, top_industry := Option.none,
        top_country := Option.none, avg_yoy_change := PFloat.real 0,
        year_min := 2020, year_max := 2021 } ∧
    (∀ (cols : List String) (value_col : String) (group : List Rec → List (List Cell)),
      safe_groupby_sum [] cols value_col group =
        { columns := cols ++ [value_col], rows := [] }) ∧
    animated_data [] =
      { columns := ["year", "industry", "total_laid_off"], rows := [] } ∧
    yearlyTotals [] = [] ∧
    industryTotals [] = [] ∧
    countryTotals [] = [] :=
  c1_empty_filtered_sentinels [] 2020 2021 rfl

/-- The raw row refuting C3: year 2020 with month "13", a negative
total_laid_off and a negative numeric funds_raised. -/
def c3row : RawRow :=
  { company := RawValue.none, location := RawValue.none,
    industry := RawValue.str "Tech", country := RawValue.str "US",
    year := RawValue.num 2020, month := RawValue.str "13",
    total_laid_off := RawValue.num (-5), funds_raised := RawValue.num (-5) }

/-- The record the sanitizer retains from `c3row`. -/
def c3rec : Rec :=
  { company := "Unknown", location := "Unknown", industry := "Tech",
    country := "US", year := 2020, month := 13, total_laid_off := -5,
    funds_raised_clean := some (-5) }

/-- Counterexample to C3: the sanitizer retains a record with month 13 (out
of [0,12]), a negative total_laid_off, and a negative funds_raised_clean. -/
theorem c3_counterexample :
    sanitize [c3row] = Except.ok [c3rec] ∧
    c3rec.month = 13 ∧ ¬ c3rec.month ≤ 12 ∧
    c3rec.total_laid_off = -5 ∧ ¬ 0 ≤ c3rec.total_laid_off ∧
    c3rec.funds_raised_clean = some (-5) ∧ ¬ (0 : ℚ) ≤ -5 :=
  ⟨by decide, rfl, by decide, rfl, by decide, rfl, by decide⟩

lemma pyFloatL_nonneg : ∀ (cs : List Char) (q : ℚ), pyFloatL cs = some q → 0 ≤ q := by
  intro cs q h
  simp only [pyFloatL] at h
  split_ifs at h <;>
    (simp only [Option.some.injEq] at h; subst h; positivity)

lemma ratTrunc_nonneg {q : ℚ} (h : 0 ≤ q) : 0 ≤ ratTrunc q :=
  Int.tdiv_nonneg (Rat.num_nonneg.mpr h) (Int.natCast_nonneg q.den)

lemma suffixMult_nonneg (rest : List Char) : 0 ≤ suffixMult rest := by
  unfold suffixMult
  split
  · norm_num
  · split_ifs <;> norm_num

lemma clean_funds_nonneg (v : RawValue) (q : ℚ)
    (h : clean_funds v = Except.ok (some q))
    (hv : ∀ q0 : ℚ, v = RawValue.num q0 → 0 ≤ q0) : 0 ≤ q := by
  cases v with
  | none => simp [clean_funds] at h
  | num q0 =>
    have hq0 := hv q0 rfl
    simp only [clean_funds, Except.ok.injEq, Option.some.injEq] at h
    exact h ▸ hq0
  | str s =>
    simp only [clean_funds] at h
    split_ifs at h
    · exact absurd h (by simp)
    · split at h
      · exact absurd h (by simp)
      · rename_i q1 hp
        have hq1 := pyFloatL_nonneg _ _ hp
        simp only [Except.ok.injEq, Option.some.injEq] at h
        exact h ▸ mul_nonneg hq1 (suffixMult_nonneg _)

lemma normalize_month_nonneg (v : RawValue)
    (hv : ∀ q : ℚ, v = RawValue.num q → 0 ≤ q) : 0 ≤ normalize_month v := by
  cases v with
  | none => exact le_refl 0
  | num q => exact ratTrunc_nonneg (hv q rfl)
  | str s =>
    simp only [normalize_month]
    split_ifs
    · exact Int.natCast_nonneg _
    · split
      · rename_i p hp
        have hmem := List.mem_of_find?_eq_some hp
        have hall : ∀ p ∈ month_map, 0 ≤ p.2 := by decide
        exact hall _ hmem
      · exact le_refl 0

lemma coerceInt_nonneg (v : RawValue)
    (hv : ∀ q : ℚ, parseNumeric v = some q → 0 ≤ q) : 0 ≤ coerceInt v := by
  unfold coerceInt
  split
  · exact le_refl 0
  · rename_i q hq
    exact ratTrunc_nonneg (hv q hq)

lemma sanitizeRow_fields (row : RawRow) (r : Rec)
    (h : sanitizeRow row = Except.ok (some r)) :
    (∃ qy : ℚ, parseNumeric row.year = some qy ∧ r.year = ratTrunc qy) ∧
    r.month = normalize_month row.month ∧
    r.total_laid_off = coerceInt row.total_laid_off ∧
    clean_funds row.funds_raised = Except.ok r.funds_raised_clean := by
  unfold sanitizeRow at h
  split at h
  · exact absurd h (by simp)
  · rename_i qy hqy
    split at h
    · exact absurd h (by simp)
    · rename_i funds hf
      simp only [Except.ok.injEq, Option.some.injEq] at h
      subst h
      exact ⟨⟨qy, hqy, rfl⟩, rfl, rfl, hf⟩

lemma sanitize_mem : ∀ (rows : List RawRow) (recs : List Rec),
    sanitize rows = Except.ok recs → ∀ r ∈ recs,
      ∃ row ∈ rows, sanitizeRow row = Except.ok (some r)
  | [], recs, h, r => by
    simp only [sanitize, Except.ok.injEq] at h
    subst h
    intro hr
    exact absurd hr (List.not_mem_nil r)
  | row :: rest, recs, h, r => by
    intro hr
    unfold sanitize at h
    split at h
    · exact absurd h (by simp)
    · exact absurd h (by simp)
    · rename_i hrow htail
      simp only [Except.ok.injEq] at h
      subst h
      obtain ⟨row2, hm, hh⟩ := sanitize_mem rest _ htail r hr
      exact ⟨row2, List.mem_cons_of_mem _ hm, hh⟩
    · rename_i r0 tail hrow htail
      simp only [Except.ok.injEq] at h
      subst h
      rcases List.mem_cons.mp hr with hEq | hmem
      · exact ⟨row, List.mem_cons_self _ _, hEq ▸ hrow⟩
      · obtain ⟨row2, hm, hh⟩ := sanitize_mem rest _ htail r hmem
        exact ⟨row2, List.mem_cons_of_mem _ hm, hh⟩

theorem c3_amended_invariants (rows : List RawRow) (recs : List Rec)
    (h : sanitize rows = Except.ok recs) (r : Rec) (hr : r ∈ recs) :
    ∃ row ∈ rows, sanitizeRow row = Except.ok (some r) ∧
      (∃ qy : ℚ, parseNumeric row.year = some qy ∧ r.year = ratTrunc qy) ∧
      ((∀ q : ℚ, row.month = RawValue.num q → 0 ≤ q) → 0 ≤ r.month) ∧
      ((∀ q : ℚ, parseNumeric row.total_laid_off = some q → 0 ≤ q) →
        0 ≤ r.total_laid_off) ∧
      ((∀ q : ℚ, row.funds_raised = RawValue.num q → 0 ≤ q) →
        ∀ q : ℚ, r.funds_raised_clean = some q → 0 ≤ q) := by
  obtain ⟨row, hm, hok⟩ := sanitize_mem rows recs h r hr
  obtain ⟨⟨qy, hqy, hy⟩, hmon, htlo, hfund⟩ := sanitizeRow_fields row r hok
  refine ⟨row, hm, hok, ⟨qy, hqy, hy⟩, ?_, ?_, ?_⟩
  · intro hv
    rw [hmon]
    exact normalize_month_nonneg _ hv
  · intro hv
    rw [htlo]
    exact coerceInt_nonneg _ hv
  · intro hv q hq
    exact clean_funds_nonneg _ q (hq ▸ hfund) hv

def c3wrow : RawRow :=
  { company := RawValue.none, location := RawValue.none,
    industry := RawValue.str "Tech", country := RawValue.str "US",
    year := RawValue.num 2021, month := RawValue.none,
    total_laid_off := RawValue.num 100, funds_raised := RawValue.none }

def c3wrec : Rec :=
  { company := "Unknown", location := "Unknown", industry := "Tech",
    country := "US", year := 2021, month := 0, total_laid_off := 100,
    funds_raised_clean := Option.none }

theorem c3_witness :
    ∃ row ∈ [c3wrow], sanitizeRow row = Except.ok (some c3wrec) ∧
      (∃ qy : ℚ, parseNumeric row.year = some qy ∧ c3wrec.year = ratTrunc qy) ∧
      ((∀ q : ℚ, row.month = RawValue.num q → 0 ≤ q) → 0 ≤ c3wrec.month) ∧
      ((∀ q : ℚ, parseNumeric row.total_laid_off = some q → 0 ≤ q) →
        0 ≤ c3wrec.total_laid_off) ∧
      ((∀ q : ℚ, row.funds_raised = RawValue.num q → 0 ≤ q) →
        ∀ q : ℚ, c3wrec.funds_raised_clean = some q → 0 ≤ q) :=
  c3_amended_invariants [c3wrow] [c3wrec] (by decide) c3wrec (by decide)

/-- The rational 2020.5 in reduced constructor form (4041/2), so that the
kernel can evaluate with it. -/
def c5q : ℚ := Rat.mk' 4041 2 (by decide) (by norm_num)

/-- A raw row whose year cell is the numeric value 2020.5 (as a CSV float
column would deliver it). -/
def c5row : RawRow :=
  { company := RawValue.none, location := RawValue.none,
    industry := RawValue.none, country := RawValue.none,
    year := RawValue.num c5q, month := RawValue.none,
    total_laid_off := RawValue.none, funds_raised := RawValue.none }

/-- The record the sanitizer retains from `c5row`. -/
def c5rec : Rec :=
  { company := "Unknown", location := "Unknown", industry := "Unknown",
    country := "Unknown", year := 2020, month := 0, total_laid_off := 0,
    funds_raised_clean := Option.none }

/-- Counterexample to C5: the year 2020.5 (= 4041/2) parses as numeric, the
row is retained, but its stored year 2020 is not the source's numeric year
(truncation changed it), so the retained year is not in the original numeric
year set {4041/2}. -/
theorem c5_counterexample :
    sanitize [c5row] = Except.ok [c5rec] ∧
    c5rec.year = 2020 ∧
    parseNumeric c5row.year = some c5q ∧
    c5q.num = 4041 ∧ c5q.den = 2 ∧
    ¬ ((2020 : ℚ) = c5q) :=
  ⟨by decide, rfl, by decide, by decide, by decide, by decide⟩

lemma sanitizeRow_dropped (row : RawRow) (h : sanitizeRow row = Except.ok Option.none) :
    parseNumeric row.year = Option.none := by
  unfold sanitizeRow at h
  split at h
  · assumption
  · split at h
    · exact absurd h (by simp)
    · exact absurd h (by simp)

lemma sanitize_years : ∀ (rows : List RawRow) (recs : List Rec),
    sanitize rows = Except.ok recs →
    recs.map Rec.year = rows.filterMap (fun row => (parseNumeric row.year).map ratTrunc)
  | [], recs, h => by
    simp only [sanitize, Except.ok.injEq] at h
    subst h
    simp
  | row :: rest, recs, h => by
    unfold sanitize at h
    split at h
    · exact absurd h (by simp)
    · exact absurd h (by simp)
    · rename_i hrow htail
      simp only [Except.ok.injEq] at h
      subst h
      have hy := sanitizeRow_dropped row hrow
      rw [List.filterMap_cons, hy]
      exact sanitize_years rest _ htail
    · rename_i r0 tail hrow htail
      simp only [Except.ok.injEq] at h
      subst h
      obtain ⟨⟨qy, hqy, hyear⟩, -, -, -⟩ := sanitizeRow_fields row r0 hrow
      rw [List.filterMap_cons, hqy]
      simp only [Option.map_some, List.map_cons]
      rw [hyear]
      exact congrArg (List.cons (ratTrunc qy)) (sanitize_years rest _ htail)

lemma ratTrunc_int {q : ℚ} (h : q.den = 1) :
    ratTrunc q = q.num ∧ ((q.num : ℚ) = q) := by
  constructor
  · unfold ratTrunc
    rw [h]
    exact Int.tdiv_one q.num
  · exact (Rat.den_eq_one_iff q).mp h

theorem c5_amended_year_truncation (rows : List RawRow) (recs : List Rec)
    (h : sanitize rows = Except.ok recs) :
    recs.map Rec.year = rows.filterMap (fun row => (parseNumeric row.year).map ratTrunc) ∧
    ∀ r ∈ recs, ∃ row ∈ rows, ∃ q : ℚ, parseNumeric row.year = some q ∧
      r.year = ratTrunc q ∧ (q.den = 1 → (r.year : ℚ) = q) := by
  refine ⟨sanitize_years rows recs h, fun r hr => ?_⟩
  obtain ⟨row, hm, hok⟩ := sanitize_mem rows recs h r hr
  obtain ⟨⟨qy, hqy, hyear⟩, -, -, -⟩ := sanitizeRow_fields row r hok
  refine ⟨row, hm, qy, hqy, hyear, fun hden => ?_⟩
  obtain ⟨h1, h2⟩ := ratTrunc_int hden
  rw [hyear, h1, h2]

def c5wrow1 : RawRow :=
  { company := RawValue.none, location := RawValue.none,
    industry := RawValue.none, country := RawValue.none,
    year := RawValue.num 2021, month := RawValue.none,
    total_laid_off := RawValue.none, funds_raised := RawValue.none }

def c5wrow2 : RawRow :=
  { company := RawValue.none, location := RawValue.none,
    industry := RawValue.none, country := RawValue.none,
    year := RawValue.str "not a year", month := RawValue.none,
    total_laid_off := RawValue.none, funds_raised := RawValue.none }

def c5wrec : Rec :=
  { company := "Unknown", location := "Unknown", industry := "Unknown",
    country := "Unknown", year := 2021, month := 0, total_laid_off := 0,
    funds_raised_clean := Option.none }

theorem c5_witness :
    [c5wrec].map Rec.year =
      [c5wrow1, c5wrow2].filterMap (fun row => (parseNumeric row.year).map ratTrunc) ∧
    ∀ r ∈ [c5wrec], ∃ row ∈ [c5wrow1, c5wrow2], ∃ q : ℚ,
      parseNumeric row.year = some q ∧ r.year = ratTrunc q ∧
      (q.den = 1 → (r.year : ℚ) = q) :=
  c5_amended_year_truncation [c5wrow1, c5wrow2] [c5wrec] (by decide)

/-- C9: supplying a reversed year range gives exactly the same filtered
output as the sorted range (the engine swaps before filtering), and the
year-range filter is inclusive on both endpoints. -/
theorem c9_filter_swap_inclusive (recs : List Rec) (a b : ℤ) (ind cty : String) :
    (a > b → filterEngine recs a b ind cty = filterEngine recs b a ind cty) ∧
    (∀ r : Rec, r ∈ filterEngine recs a b ind cty ↔
      (r ∈ recs ∧ min a b ≤ r.year ∧ r.year ≤ max a b ∧
       (ind ≠ "All" → r.industry = ind) ∧ (cty ≠ "All" → r.country = cty))) := by
  constructor
  · intro hab
    have hba : ¬ b > a := by omega
    simp only [filterEngine, if_pos hab, if_neg hba]
  · intro r
    unfold filterEngine
    have hmin : min a b = (if a > b then b else a) := by
      rcases le_or_lt a b with h | h
      · rw [min_eq_left h, if_neg (by omega)]
      · rw [min_eq_right h.le, if_pos h]
    have hmax : max a b = (if a > b then a else b) := by
      rcases le_or_lt a b with h | h
      · rw [max_eq_right h, if_neg (by omega)]
      · rw [max_eq_left h.le, if_pos h]
    rw [← hmin, ← hmax]
    by_cases hi : ind = "All" <;> by_cases hc : cty = "All" <;>
      simp [hi, hc, List.mem_filter, and_assoc] <;> tauto

/-- A concrete record for the C9 witness. -/
def c9rec : Rec :=
  { company := "Unknown", location := "Unknown", industry := "Tech",
    country := "US", year := 2020, month := 1, total_laid_off := 10,
    funds_raised_clean := Option.none }

/-- Witness for C9 at the reversed range (2021, 2019). -/
theorem c9_witness :
    (2021 : ℤ) > 2019 ∧
    filterEngine [c9rec] 2021 2019 "All" "All" =
      filterEngine [c9rec] 2019 2021 "All" "All" :=
  ⟨by decide, (c9_filter_swap_inclusive [c9rec] 2021 2019 "All" "All").1 (by decide)⟩

lemma sum_map_ite_single {κ : Type} [DecidableEq κ] (a : κ) (c : ℤ) :
    ∀ ks : List κ, ks.Nodup →
      (ks.map (fun k => if a = k then c else 0)).sum = if a ∈ ks then c else 0
  | [], _ => by simp
  | k :: t, h => by
    obtain ⟨hk, ht⟩ := List.nodup_cons.mp h
    by_cases hak : a = k
    · subst hak
      simp [sum_map_ite_single a c t ht, hk]
    · simp [hak, sum_map_ite_single a c t ht, List.mem_cons]

lemma grouped_cover_sum {κ : Type} [DecidableEq κ] (key : Rec → κ) :
    ∀ (recs : List Rec) (ks : List κ), ks.Nodup → (∀ r ∈ recs, key r ∈ ks) →
      (ks.map (fun k =>
        ((recs.filter (fun r => decide (key r = k))).map Rec.total_laid_off).sum)).sum
        = (recs.map Rec.total_laid_off).sum
  | [], ks, _, _ => by simp
  | r :: rest, ks, hnd, hcov => by
    have hr : key r ∈ ks := hcov r (List.mem_cons_self r rest)
    have ih := grouped_cover_sum key rest ks hnd
      (fun x hx => hcov x (List.mem_cons_of_mem r hx))
    have hsplit : (fun k =>
        ((List.filter (fun x => decide (key x = k)) (r :: rest)).map
          Rec.total_laid_off).sum)
        = (fun k => (if key r = k then r.total_laid_off else 0) +
        ((List.filter (fun x => decide (key x = k)) rest).map
          Rec.total_laid_off).sum) := by
      funext k
      by_cases h : key r = k
      · simp [List.filter_cons, h]
      · simp [List.filter_cons, h]
    rw [hsplit, List.sum_map_add, sum_map_ite_single (key r) r.total_laid_off ks hnd,
      if_pos hr, ih]
    simp

lemma groupbySumBy_snd_sum {κ : Type} [DecidableEq κ] (le : κ → κ → Prop)
    [DecidableRel le] (key : Rec → κ) (recs : List Rec) :
    ((groupbySumBy le key recs).map Prod.snd).sum = (recs.map Rec.total_laid_off).sum := by
  unfold groupbySumBy
  rw [List.map_map]
  have hperm :
      (((recs.map key).dedup).insertionSort le).Perm ((recs.map key).dedup) :=
    List.perm_insertionSort le _
  rw [(hperm.map _).sum_eq]
  exact grouped_cover_sum key recs ((recs.map key).dedup)
    (List.nodup_dedup _)
    (fun r hr => List.mem_dedup.mpr (List.mem_map_of_mem key hr))

/-- C10: grouping preserves the overall total — the summed column of each
grouped-sum table (by year, by industry, by country) adds up to the
total-layoffs scalar computed directly from the filtered set. -/
theorem c10_group_sum_conservation (recs : List Rec) :
    ((yearlyTotals recs).map Prod.snd).sum = totalLayoffsVal recs ∧
    ((industryTotals recs).map Prod.snd).sum = totalLayoffsVal recs ∧
    ((countryTotals recs).map Prod.snd).sum = totalLayoffsVal recs := by
  have htot : totalLayoffsVal recs = (recs.map Rec.total_laid_off).sum := by
    unfold totalLayoffsVal
    split
    · rename_i h
      subst h
      simp
    · rfl
  rw [htot]
  exact ⟨groupbySumBy_snd_sum _ _ recs, groupbySumBy_snd_sum _ _ recs,
    groupbySumBy_snd_sum _ _ recs⟩

/-- C6: the correlation outcome is computed only from the qualifying rows
(funds present and strictly positive), and with fewer than 2 qualifying rows
the block reports an indeterminate outcome (the no-data warning or the
"insufficient data" message), never a numeric coefficient such as 0 or 1. -/
theorem c6_correlation_guard (filtered : List Rec) :
    corrReport filtered = corrReport (validRows filtered) ∧
    ((validRows filtered).length < 2 →
      corrReport filtered = CorrReport.noFunding ∨
      corrReport filtered = CorrReport.insufficient) := by
  have hid : validRows (validRows filtered) = validRows filtered := by
    unfold validRows
    rw [List.filter_filter]
    congr 1
    funext r
    cases r.funds_raised_clean <;> simp
  constructor
  · unfold corrReport
    rw [hid]
  · intro h
    rcases hv : validRows filtered with _ | ⟨a, t⟩
    · left
      unfold corrReport
      rw [hv]
      rfl
    · right
      rw [hv] at h
      cases t with
      | nil =>
        unfold corrReport
        rw [hv]
        simp
      | cons b t2 =>
        exfalso
        simp only [List.length_cons] at h
        omega

/-- A qualifying record for the C6 witness (positive funds). -/
def c6rec : Rec :=
  { company := "Unknown", location := "Unknown", industry := "Tech",
    country := "US", year := 2020, month := 1, total_laid_off := 10,
    funds_raised_clean := some 5 }

/-- Witness for C6: one single qualifying row is reported as indeterminate. -/
theorem c6_witness :
    ([c6rec].filter (fun r =>
      match r.funds_raised_clean with
      | some q => decide (0 < q)
      | Option.none => false)).length < 2 ∧
    (corrReport [c6rec] = CorrReport.noFunding ∨
     corrReport [c6rec] = CorrReport.insufficient) :=
  ⟨by decide, (c6_correlation_guard [c6rec]).2 (by decide)⟩

/-- A year-2020 record with zero total for the C8 counterexample. -/
def c8rec0 : Rec :=
  { company := "Unknown", location := "Unknown", industry := "Tech",
    country := "US", year := 2020, month := 1, total_laid_off := 0,
    funds_raised_clean := Option.none }

/-- A year-2021 record with positive total for the C8 counterexample. -/
def c8rec1 : Rec :=
  { company := "Unknown", location := "Unknown", industry := "Tech",
    country := "US", year := 2021, month := 1, total_laid_off := 100,
    funds_raised_clean := Option.none }

/-- Counterexample to C8: with yearly totals 2020 → 0 and 2021 → 100, the
division by the zero prior-year total is not guarded — `pct_change` yields
+infinity, `dropna` keeps it, and the average YoY change is +infinity, not
an "insufficient data" report. -/
theorem c8_counterexample :
    yearlyTotals [c8rec0, c8rec1] = [(2020, 0), (2021, 100)] ∧
    avgYoyChange [c8rec0, c8rec1] = PFloat.pinf :=
  ⟨by decide, by decide⟩

lemma psum_map_real (l : List ℚ) : psum (l.map PFloat.real) = PFloat.real l.sum := by
  induction l with
  | nil => rfl
  | cons a t ih =>
    show PFloat.add (PFloat.real a) (psum (t.map PFloat.real)) = _
    rw [ih]
    rfl

lemma pmean_map_real (l : List ℚ) :
    pmean (l.map PFloat.real) = PFloat.real (l.sum / (l.length : ℚ)) := by
  unfold pmean
  rw [psum_map_real]
  simp [PFloat.divNat]

lemma avg_from_spec_list (chs : List ℚ) :
    (if chs.map PFloat.real = [] then PFloat.real 0 else pmean (chs.map PFloat.real))
      = PFloat.real (if chs = [] then 0 else chs.sum / (chs.length : ℚ)) := by
  cases chs with
  | nil => rfl
  | cons c cs =>
    rw [if_neg (by simp), if_neg (by simp)]
    exact pmean_map_real (c :: cs)

lemma yoy_spec_eq : ∀ ps : List (ℤ × ℤ), (∀ pc ∈ ps, pc.1 = 0 → pc.2 = 0) →
    ((ps.map (fun pc => pctStep pc.1 pc.2)).filter
      (fun x => decide (x ≠ PFloat.nan))).map PFloat.scale100
    = (ps.filterMap specChange).map PFloat.real := by
  intro ps
  induction ps with
  | nil => intro _; rfl
  | cons pc rest ih =>
    intro hz
    have htail := ih (fun x hx h0 => hz x (List.mem_cons_of_mem pc hx) h0)
    by_cases h0 : pc.1 = 0
    · have h2 := hz pc (List.mem_cons_self pc rest) h0
      have hstep : pctStep pc.1 pc.2 = PFloat.nan := by simp [pctStep, h0, h2]
      have hnone : specChange pc = Option.none := if_neg (fun hn => hn h0)
      rw [List.map_cons, hstep, List.filter_cons,
        if_neg (by norm_num), List.filterMap_cons_none hnone, htail]
    · have hstep : pctStep pc.1 pc.2
          = PFloat.real (((pc.2 : ℚ) - (pc.1 : ℚ)) / (pc.1 : ℚ)) := by
        simp [pctStep, h0]
      have hsome : specChange pc
          = some ((((pc.2 : ℚ) - (pc.1 : ℚ)) / (pc.1 : ℚ)) * 100) := if_pos h0
      rw [List.map_cons, hstep, List.filter_cons,
        if_pos (decide_eq_true (fun hh => PFloat.noConfusion hh)),
        List.filterMap_cons_some hsome, List.map_cons, List.map_cons, htail]
      rfl

/-- C8 as amended: the year-over-year pipeline is total, the first year is
excluded, and 0/0 steps are dropped as undefined; whenever no prior-year
total is zero with a nonzero successor (the unguarded infinity case shown by
the counterexample), the computed average equals the spec's arithmetic mean
of the defined per-year changes, and it is 0.0 when no defined change
exists. -/
theorem c8_amended_avg_yoy (recs : List Rec)
    (hz : ∀ pc ∈ adjPairs ((yearlyTotals recs).map Prod.snd), pc.1 = 0 → pc.2 = 0) :
    avgYoyChange recs = PFloat.real (specAvgYoY ((yearlyTotals recs).map Prod.snd)) := by
  have hkey := yoy_spec_eq (adjPairs ((yearlyTotals recs).map Prod.snd)) hz
  unfold avgYoyChange yoyChanges specAvgYoY specDefinedChanges
  rw [hkey]
  exact avg_from_spec_list _

/-- A single-year record for the C8 witness. -/
def c8wrec : Rec :=
  { company := "Unknown", location := "Unknown", industry := "Tech",
    country := "US", year := 2020, month := 1, total_laid_off := 100,
    funds_raised_clean := Option.none }

/-- Witness for C8 at a one-year filtered set (no defined change, avg 0.0). -/
theorem c8_witness :
    avgYoyChange [c8wrec]
      = PFloat.real (specAvgYoY ((yearlyTotals [c8wrec]).map Prod.snd)) :=
  c8_amended_avg_yoy [c8wrec] (by decide)

/-- First row of the C2 end-to-end dataset. -/
def c2row1 : RawRow :=
  { company := RawValue.none, location := RawValue.none,
    industry := RawValue.str "Tech", country := RawValue.str "US",
    year := RawValue.num 2020, month := RawValue.none,
    total_laid_off := RawValue.num 100, funds_raised := RawValue.str "10M" }

/-- Second row of the C2 end-to-end dataset. -/
def c2row2 : RawRow :=
  { company := RawValue.none, location := RawValue.none,
    industry := RawValue.str "Tech", country := RawValue.str "US",
    year := RawValue.num 2021, month := RawValue.none,
    total_laid_off := RawValue.num 300, funds_raised := RawValue.str "10M" }

/-- The normalized first record of the C2 dataset. -/
def c2rec1 : Rec :=
  { company := "Unknown", location := "Unknown", industry := "Tech",
    country := "US", year := 2020, month := 0, total_laid_off := 100,
    funds_raised_clean := some 10000000 }

/-- The normalized second record of the C2 dataset. -/
def c2rec2 : Rec :=
  { company := "Unknown", location := "Unknown", industry := "Tech",
    country := "US", year := 2021, month := 0, total_laid_off := 300,
    funds_raised_clean := some 10000000 }

/-- C2: on the two-record dataset (2020/Tech/US/100/"10M" and
2021/Tech/US/300/"10M"), filtering 2020–2021 with industry "All" and
country "All" and aggregating yields yearly totals {2020: 100, 2021: 300},
average YoY change 200.0, peak year 2021, top industry "Tech" and top
country "US". -/
theorem c2_end_to_end :
    sanitize [c2row1, c2row2] = Except.ok [c2rec1, c2rec2] ∧
    filterEngine [c2rec1, c2rec2] 2020 2021 "All" "All" = [c2rec1, c2rec2] ∧
    yearlyTotals [c2rec1, c2rec2] = [(2020, 100), (2021, 300)] ∧
    avgYoyChange [c2rec1, c2rec2] = PFloat.real 200 ∧
    summaryScalars [c2rec1, c2rec2] 2020 2021 =
      { peak_year := some 2021, top_industry := some "Tech",
        top_country := some "US", avg_yoy_change := PFloat.real 200,
        year_min := 2020, year_max := 2021 } := by
  have harith : ((10 : ℚ) * 1000000) = 10000000 := by norm_num
  have h1 : sanitize [c2row1, c2row2] = Except.ok
      [{ company := "Unknown", location := "Unknown", industry := "Tech",
         country := "US", year := 2020, month := 0, total_laid_off := 100,
         funds_raised_clean := some ((10 : ℚ) * 1000000) },
       { company := "Unknown", location := "Unknown", industry := "Tech",
         country := "US", year := 2021, month := 0, total_laid_off := 300,
         funds_raised_clean := some ((10 : ℚ) * 1000000) }] := rfl
  have havg : avgYoyChange [c2rec1, c2rec2] = PFloat.real 200 := by
    have h0 : avgYoyChange [c2rec1, c2rec2] = PFloat.real
        (((((300 : ℤ) : ℚ) - ((100 : ℤ) : ℚ)) / ((100 : ℤ) : ℚ) * 100 + 0)
          / ((1 : ℕ) : ℚ)) := rfl
    rw [h0]
    norm_num
  have h5 : summaryScalars [c2rec1, c2rec2] 2020 2021 =
      { peak_year := some 2021, top_industry := some "Tech",
        top_country := some "US",
        avg_yoy_change := avgYoyChange [c2rec1, c2rec2],
        year_min := 2020, year_max := 2021 } := rfl
  refine ⟨?_, by decide, by decide, havg, ?_⟩
  · rw [h1, harith]
    rfl
  · rw [h5, havg]
